import Mathlib

set_option maxRecDepth 8000

/- Formal model of the TyXe regression tutorial notebook
(`examples/regression_tutorial.ipynb`).  The notebook is embedded as a list
of cells; each code cell is transcribed statement by statement into a small
Python abstract syntax (`PyExpr` / `PyStmt`).  Markdown cells are kept as
placeholders so that cell indices in theorems match the indices of the cells
in the `.ipynb` JSON.  Syntactic claims (control flow, exception handling,
global-state mutation, I/O surface) are settled by decidable scans over the
transcript; numeric claims (dataset sizes, batch sizes, data ranges) are
settled by a shape semantics for the tensor expressions of the dataset cell
and by a real-number semantics of the arithmetic the notebook performs. -/

namespace RegressionTutorial

/-- Python expressions as they occur in the notebook.  Numeric literals are
`num m e`, denoting `m * 10 ^ e` (so `0.3` is `num 3 (-1)` and `42` is
`num 42 0`), which represents every literal in the notebook exactly. -/
inductive PyExpr where
  | name : String → PyExpr
  | num : Int → Int → PyExpr
  | str : String → PyExpr
  | listE : List PyExpr → PyExpr
  | dictE : List (String × PyExpr) → PyExpr
  | attr : PyExpr → String → PyExpr
  | call : PyExpr → List PyExpr → List (String × PyExpr) → PyExpr
  | bin : String → PyExpr → PyExpr → PyExpr

/-- Python statements as they occur in the notebook.  `forRange v args body`
is `for v in range(args): body`; `forIn` iterates over an expression;
`tryE`/`whileE` are present in the syntax so that their absence from the
transcript is a meaningful check, the notebook never uses them. -/
inductive PyStmt where
  | imp : String → PyStmt
  | impFrom : String → List String → PyStmt
  | impAs : String → String → PyStmt
  | magic : String → PyStmt
  | assign : List String → PyExpr → PyStmt
  | exprS : PyExpr → PyStmt
  | forRange : String → List PyExpr → List PyStmt → PyStmt
  | forIn : String → PyExpr → List PyStmt → PyStmt
  | defFun : String → List String → List PyStmt → PyStmt
  | tryE : List PyStmt → List PyStmt → PyStmt
  | whileE : PyExpr → List PyStmt → PyStmt

/-- A notebook cell: markdown prose (content irrelevant to the claims) or a
code cell with its statements. -/
inductive Cell where
  | markdown : Cell
  | code : List PyStmt → Cell

open PyExpr PyStmt

/-- Cell 0: `import sys` and `sys.path.append("..")`. -/
def cell0 : Cell := .code
  [ .imp "sys",
    .exprS (.call (.attr (.attr (.name "sys") "path") "append") [.str ".."] []) ]

/-- Cell 1: library imports and `pyro.set_rng_seed(42)`. -/
def cell1 : Cell := .code
  [ .impFrom "functools" ["partial"],
    .impAs "matplotlib.pyplot" "plt",
    .magic "matplotlib inline",
    .imp "torch",
    .impAs "torch.nn" "nn",
    .impAs "torch.utils.data" "data",
    .imp "pyro",
    .impAs "pyro.distributions" "dist",
    .imp "tyxe",
    .exprS (.call (.attr (.name "pyro") "set_rng_seed") [.num 42 0] []) ]

/-- Cell 3: synthetic dataset construction. -/
def cell3 : Cell := .code
  [ .assign ["x1"]
      (.bin "-"
        (.bin "*" (.call (.attr (.name "torch") "rand") [.num 50 0, .num 1 0] [])
          (.num 3 (-1)))
        (.num 1 0)),
    .assign ["x2"]
      (.bin "+"
        (.bin "*" (.call (.attr (.name "torch") "rand") [.num 50 0, .num 1 0] [])
          (.num 5 (-1)))
        (.num 5 (-1))),
    .assign ["x"]
      (.call (.attr (.name "torch") "cat") [.listE [.name "x1", .name "x2"]] []),
    .assign ["y"]
      (.bin "+"
        (.call (.attr
          (.call (.attr
            (.call (.attr (.name "x") "mul") [.num 4 0] []) "add")
            [.num 8 (-1)] []) "cos") [] [])
        (.bin "*" (.num 1 (-1))
          (.call (.attr (.name "torch") "randn_like") [.name "x"] []))),
    .assign ["x_test"]
      (.call (.attr
        (.call (.attr (.name "torch") "linspace")
          [.num (-2) 0, .num 2 0, .num 401 0] []) "unsqueeze")
        [.num (-1) 0] []),
    .assign ["y_test"]
      (.call (.attr
        (.call (.attr
          (.call (.attr (.name "x_test") "mul") [.num 4 0] []) "add")
          [.num 8 (-1)] []) "cos") [] []) ]

/-- Cell 4: `TensorDataset` and `DataLoader` with `batch_size=len(x)`. -/
def cell4 : Cell := .code
  [ .assign ["dataset"]
      (.call (.attr (.name "data") "TensorDataset") [.name "x", .name "y"] []),
    .assign ["loader"]
      (.call (.attr (.name "data") "DataLoader") [.name "dataset"]
        [("batch_size", .call (.name "len") [.name "x"] [])]) ]

/-- Cell 5: scatter/line plot of the dataset. -/
def cell5 : Cell := .code
  [ .exprS (.call (.attr (.name "plt") "scatter")
      [.call (.attr (.name "x") "squeeze") [] [], .name "y"] []),
    .exprS (.call (.attr (.name "plt") "plot")
      [.call (.attr (.name "x_test") "squeeze") [] [], .name "y_test"] []) ]

/-- Cell 8: the MLE baseline, a hand-written training loop minimizing a
hand-computed squared-error objective. -/
def cell8 : Cell := .code
  [ .assign ["net"]
      (.call (.attr (.name "nn") "Sequential")
        [ .call (.attr (.name "nn") "Linear") [.num 1 0, .num 50 0] [],
          .call (.attr (.name "nn") "Tanh") [] [],
          .call (.attr (.name "nn") "Linear") [.num 50 0, .num 1 0] [] ] []),
    .assign ["optim"]
      (.call (.attr (.attr (.name "torch") "optim") "Adam")
        [.call (.attr (.name "net") "parameters") [] [], .num 1 (-4)] []),
    .forRange "_" [.num 10000 0]
      [ .exprS (.call (.attr (.name "optim") "zero_grad") [] []),
        .exprS (.call (.attr
          (.call (.attr
            (.call (.attr
              (.call (.attr
                (.call (.name "net") [.name "x"] []) "sub") [.name "y"] [])
              "pow") [.num 2 0] [])
            "mean") [] []) "backward") [] []),
        .exprS (.call (.attr (.name "optim") "step") [] []) ] ]

/-- Cell 9: plot of the MLE fit. -/
def cell9 : Cell := .code
  [ .exprS (.call (.attr (.name "plt") "scatter") [.name "x", .name "y"]
      [("color", .str "black")]),
    .exprS (.call (.attr (.name "plt") "plot") [.name "x_test", .name "y_test"]
      [("color", .str "black")]),
    .exprS (.call (.attr (.name "plt") "plot")
      [.name "x_test",
       .call (.attr (.call (.name "net") [.name "x_test"] []) "detach") [] []]
      [("color", .str "blue")]),
    .exprS (.call (.attr (.name "plt") "ylim") [.num (-2) 0, .num 2 0] []) ]

/-- Cell 12: the network used for the variational BNN
(`nn.Sequential(nn.Linear(1, 50), nn.Tanh(), nn.Linear(50,1))`). -/
def cell12 : Cell := .code
  [ .assign ["net"]
      (.call (.attr (.name "nn") "Sequential")
        [ .call (.attr (.name "nn") "Linear") [.num 1 0, .num 50 0] [],
          .call (.attr (.name "nn") "Tanh") [] [],
          .call (.attr (.name "nn") "Linear") [.num 50 0, .num 1 0] [] ] []) ]

/-- Cell 14: the prior, `tyxe.priors.IIDPrior(dist.Normal(0, 1))`. -/
def cell14 : Cell := .code
  [ .assign ["prior"]
      (.call (.attr (.attr (.name "tyxe") "priors") "IIDPrior")
        [.call (.attr (.name "dist") "Normal") [.num 0 0, .num 1 0] []] []) ]

/-- Cell 16: the likelihood,
`tyxe.likelihoods.HomoskedasticGaussian(len(x), scale=0.1)`. -/
def cell16 : Cell := .code
  [ .assign ["obs_model"]
      (.call (.attr (.attr (.name "tyxe") "likelihoods") "HomoskedasticGaussian")
        [.call (.name "len") [.name "x"] []] [("scale", .num 1 (-1))]) ]

/-- Cell 18: the guide builder. -/
def cell18 : Cell := .code
  [ .assign ["guide_builder"]
      (.call (.name "partial") [.attr (.attr (.name "tyxe") "guides") "AutoNormal"]
        [("init_scale", .num 1 (-2))]) ]

/-- Cell 20: the `VariationalBNN` object. -/
def cell20 : Cell := .code
  [ .assign ["bnn"]
      (.call (.attr (.name "tyxe") "VariationalBNN")
        [.name "net", .name "prior", .name "obs_model", .name "guide_builder"] []) ]

/-- Cell 21: SVI training; clears the global parameter store, creates a
module-level `elbos` list, defines a callback appending to it, and calls
`bnn.fit`. -/
def cell21 : Cell := .code
  [ .exprS (.call (.attr (.name "pyro") "clear_param_store") [] []),
    .assign ["optim"]
      (.call (.attr (.attr (.name "pyro") "optim") "Adam")
        [.dictE [("lr", .num 1 (-3))]] []),
    .assign ["elbos"] (.listE []),
    .defFun "callback" ["bnn", "i", "e"]
      [ .exprS (.call (.attr (.name "elbos") "append") [.name "e"] []) ],
    .exprS (.call (.attr (.name "bnn") "fit")
      [.name "loader", .name "optim", .num 20000 0, .name "callback"] []) ]

/-- Cell 22: plots the `elbos` list filled in during `bnn.fit`. -/
def cell22 : Cell := .code
  [ .exprS (.call (.attr (.name "plt") "plot") [.name "elbos"] []) ]

/-- Cell 24: MCMC model assembly (network, prior, likelihood, kernel,
`MCMC_BNN`). -/
def cell24 : Cell := .code
  [ .exprS (.call (.attr (.name "pyro") "clear_param_store") [] []),
    .assign ["mcmc_net"]
      (.call (.attr (.name "nn") "Sequential")
        [ .call (.attr (.name "nn") "Linear") [.num 1 0, .num 50 0] [],
          .call (.attr (.name "nn") "Tanh") [] [],
          .call (.attr (.name "nn") "Linear") [.num 50 0, .num 1 0] [] ] []),
    .assign ["mcmc_prior"]
      (.call (.attr (.attr (.name "tyxe") "priors") "IIDPrior")
        [.call (.attr (.name "dist") "Normal") [.num 0 0, .num 1 0] []] []),
    .assign ["mcmc_likelihood"]
      (.call (.attr (.attr (.name "tyxe") "likelihoods") "HomoskedasticGaussian")
        [.call (.name "len") [.name "x"] []] [("scale", .num 1 (-1))]),
    .assign ["kernel"]
      (.call (.name "partial")
        [.attr (.attr (.attr (.name "pyro") "infer") "mcmc") "HMC"]
        [("step_size", .num 1 (-3)), ("num_steps", .num 50 0),
         ("target_accept_prob", .num 7 (-1))]),
    .assign ["mcmc_bnn"]
      (.call (.attr (.attr (.name "tyxe") "bnn") "MCMC_BNN")
        [.name "mcmc_net", .name "mcmc_prior", .name "mcmc_likelihood",
         .name "kernel"] []) ]

/-- Cell 25: MCMC inference. -/
def cell25 : Cell := .code
  [ .exprS (.call (.attr (.name "mcmc_bnn") "fit")
      [.name "loader", .num 100000 0] [("warmup_steps", .num 20000 0)]) ]

/-- Cell 27: SVI prediction. -/
def cell27 : Cell := .code
  [ .assign ["m", "sd"]
      (.call (.attr (.name "bnn") "predict") [.name "x_test"]
        [("num_predictions", .num 32 0)]) ]

/-- The uncertainty-band plotting statement shared by cells 28 and 30. -/
def fillBandsStmt : PyStmt :=
  .forRange "c" [.num 1 0, .num 4 0]
    [ .exprS (.call (.attr (.name "plt") "fill_between")
        [ .call (.attr (.name "x_test") "squeeze") [] [],
          .call (.attr (.bin "-" (.name "m") (.bin "*" (.name "c") (.name "sd")))
            "squeeze") [] [],
          .call (.attr (.bin "+" (.name "m") (.bin "*" (.name "c") (.name "sd")))
            "squeeze") [] [] ]
        [("alpha", .bin "*" (.name "c") (.num 1 (-1))), ("color", .str "blue")]) ]

/-- Cell 28: visualization of SVI predictive uncertainty. -/
def cell28 : Cell := .code
  [ .exprS (.call (.attr (.name "plt") "plot") [.name "x_test", .name "y_test"]
      [("color", .str "black")]),
    .exprS (.call (.attr (.name "plt") "plot")
      [.name "x_test", .call (.attr (.name "m") "detach") [] []]
      [("color", .str "blue")]),
    fillBandsStmt,
    .exprS (.call (.attr (.name "plt") "ylim") [.num (-2) 0, .num 2 0] []) ]

/-- Cell 29: MCMC prediction. -/
def cell29 : Cell := .code
  [ .assign ["m", "sd"]
      (.call (.attr (.name "mcmc_bnn") "predict") [.name "x_test"]
        [("num_predictions", .num 32 0)]) ]

/-- Cell 30: visualization of MCMC predictive uncertainty. -/
def cell30 : Cell := .code
  [ .exprS (.call (.attr (.name "plt") "scatter") [.name "x", .name "y"]
      [("color", .str "black")]),
    .exprS (.call (.attr (.name "plt") "plot") [.name "x_test", .name "y_test"]
      [("color", .str "black")]),
    .exprS (.call (.attr (.name "plt") "plot")
      [.name "x_test", .call (.attr (.name "m") "detach") [] []]
      [("color", .str "blue")]),
    fillBandsStmt,
    .exprS (.call (.attr (.name "plt") "ylim") [.num (-2) 0, .num 2 0] []) ]

/-- Cell 32: non-aggregated sampled predictions and their plot. -/
def cell32 : Cell := .code
  [ .assign ["sampled_predictions"]
      (.call (.attr (.name "bnn") "predict") [.name "x_test"]
        [("num_predictions", .num 25 0), ("aggregate", .name "False")]),
    .exprS (.call (.attr (.name "plt") "scatter") [.name "x", .name "y"]
      [("color", .str "black")]),
    .exprS (.call (.attr (.name "plt") "plot") [.name "x_test", .name "y_test"]
      [("color", .str "black")]),
    .forIn "yhat" (.name "sampled_predictions")
      [ .exprS (.call (.attr (.name "plt") "plot") [.name "x_test", .name "yhat"]
          [("color", .str "blue"), ("alpha", .num 3 (-1))]) ],
    .exprS (.call (.attr (.name "plt") "ylim") [.num (-2) 0, .num 2 0] []) ]

/-- Cell 35: evaluation and printing of the result. -/
def cell35 : Cell := .code
  [ .assign ["error", "ll"]
      (.call (.attr (.name "bnn") "evaluate")
        [.name "x_test", .name "y_test", .num 32 0] [("reduction", .str "mean")]),
    .exprS (.call (.name "print")
      [.call (.attr (.str "SVI: error - \x7b:.3f\x7d, log likelihood \x7b:.3f\x7d")
        "format") [.name "error", .name "ll"] []] []) ]

/-- The whole notebook, cells indexed exactly as in the `.ipynb` file
(markdown cells at 2, 6, 7, 10, 11, 13, 15, 17, 19, 23, 26, 31, 33, 34, 36). -/
def notebook : List Cell :=
  [ cell0, cell1, .markdown, cell3, cell4, cell5, .markdown, .markdown,
    cell8, cell9, .markdown, .markdown, cell12, .markdown, cell14, .markdown,
    cell16, .markdown, cell18, .markdown, cell20, cell21, cell22, .markdown,
    cell24, cell25, .markdown, cell27, cell28, cell29, cell30, .markdown,
    cell32, .markdown, .markdown, cell35, .markdown ]

/-- The cell at index `i` (markdown when out of range). -/
def cellAt (i : Nat) : Cell := notebook.getD i .markdown

/-- The statements of the code cell at index `i` (empty for markdown). -/
def stmtsOf (i : Nat) : List PyStmt :=
  match cellAt i with
  | .markdown => []
  | .code s => s

/-- The `j`-th statement of cell `i`. -/
def stmtAt (i j : Nat) : Option PyStmt := (stmtsOf i).get? j

/-! ### Syntactic scans over the transcript -/

/-- The dotted path of a call target: `tyxe.priors.IIDPrior` gives
`["tyxe", "priors", "IIDPrior"]`; a method on a computed receiver, such as
`net(x).sub`, gives just `["sub"]`. -/
def pathOf : PyExpr → List String
  | .name s => [s]
  | .attr e a => pathOf e ++ [a]
  | _ => []

/-- All call-target paths occurring in an expression (fuel-bounded recursion;
the transcript's expressions have depth well below the fuel used). -/
def callPathsE : Nat → PyExpr → List (List String)
  | 0, _ => []
  | fuel + 1, e =>
    match e with
    | .call f args kwargs =>
        pathOf f :: (callPathsE fuel f ++
          (args.map (callPathsE fuel)).flatten ++
          (kwargs.map (fun kv => callPathsE fuel kv.2)).flatten)
    | .attr e1 _ => callPathsE fuel e1
    | .bin _ l r => callPathsE fuel l ++ callPathsE fuel r
    | .listE xs => (xs.map (callPathsE fuel)).flatten
    | .dictE kvs => (kvs.map (fun kv => callPathsE fuel kv.2)).flatten
    | _ => []

/-- All call-target paths occurring in a statement, including inside loop and
function bodies. -/
def callPathsS : Nat → PyStmt → List (List String)
  | 0, _ => []
  | fuel + 1, s =>
    match s with
    | .assign _ e => callPathsE fuel e
    | .exprS e => callPathsE fuel e
    | .forRange _ args body =>
        (args.map (callPathsE fuel)).flatten ++ (body.map (callPathsS fuel)).flatten
    | .forIn _ e body => callPathsE fuel e ++ (body.map (callPathsS fuel)).flatten
    | .defFun _ _ body => (body.map (callPathsS fuel)).flatten
    | .tryE b h => (b.map (callPathsS fuel)).flatten ++ (h.map (callPathsS fuel)).flatten
    | .whileE e body => callPathsE fuel e ++ (body.map (callPathsS fuel)).flatten
    | _ => []

/-- All call-target paths of a cell. -/
def cellPaths (c : Cell) : List (List String) :=
  match c with
  | .markdown => []
  | .code stmts => (stmts.map (callPathsS 40)).flatten

/-- All call-target paths of the notebook. -/
def nbCallPaths : List (List String) := (notebook.map cellPaths).flatten

/-- Every identifier and attribute field occurring in an expression
(string literals excluded). -/
def namesE : Nat → PyExpr → List String
  | 0, _ => []
  | fuel + 1, e =>
    match e with
    | .name s => [s]
    | .attr e1 a => namesE fuel e1 ++ [a]
    | .call f args kwargs =>
        namesE fuel f ++ (args.map (namesE fuel)).flatten ++
          (kwargs.map (fun kv => namesE fuel kv.2)).flatten
    | .bin _ l r => namesE fuel l ++ namesE fuel r
    | .listE xs => (xs.map (namesE fuel)).flatten
    | .dictE kvs => (kvs.map (fun kv => namesE fuel kv.2)).flatten
    | _ => []

/-- Every identifier and attribute field occurring in a statement. -/
def namesS : Nat → PyStmt → List String
  | 0, _ => []
  | fuel + 1, s =>
    match s with
    | .assign ts e => ts ++ namesE fuel e
    | .exprS e => namesE fuel e
    | .forRange v args body =>
        v :: ((args.map (namesE fuel)).flatten ++ (body.map (namesS fuel)).flatten)
    | .forIn v e body => v :: (namesE fuel e ++ (body.map (namesS fuel)).flatten)
    | .defFun f ps body => f :: (ps ++ (body.map (namesS fuel)).flatten)
    | .tryE b h => (b.map (namesS fuel)).flatten ++ (h.map (namesS fuel)).flatten
    | .whileE e body => namesE fuel e ++ (body.map (namesS fuel)).flatten
    | _ => []

/-- Every identifier and attribute field occurring in a cell. -/
def cellNames (c : Cell) : List String :=
  match c with
  | .markdown => []
  | .code stmts => (stmts.map (namesS 40)).flatten

/-- Whether the cell mentions the identifier or attribute field `s`. -/
def cellMentions (s : String) (c : Cell) : Bool := (cellNames c).contains s

/-- The modules imported by a statement. -/
def importsOfStmt : PyStmt → List String
  | .imp m => [m]
  | .impAs m _ => [m]
  | .impFrom m _ => [m]
  | _ => []

/-- All modules imported anywhere in the notebook. -/
def importedModules : List String :=
  ((notebook.map fun c =>
      match c with
      | Cell.markdown => []
      | Cell.code stmts => (stmts.map importsOfStmt).flatten)).flatten

/-- Whether a statement is a loop (`for` over a range, `for` over a value, or
`while`) at its head. -/
def stmtIsLoopB : PyStmt → Bool
  | .forRange _ _ _ => true
  | .forIn _ _ _ => true
  | .whileE _ _ => true
  | _ => false

/-- Whether a statement is a `try`/`except` handler at its head. -/
def stmtIsTryB : PyStmt → Bool
  | .tryE _ _ => true
  | _ => false

/-- Whether a statement is a `while` loop at its head. -/
def stmtIsWhileB : PyStmt → Bool
  | .whileE _ _ => true
  | _ => false

/-- Whether a statement is a function definition at its head. -/
def stmtIsDefB : PyStmt → Bool
  | .defFun _ _ _ => true
  | _ => false

/-- Whether `p` holds of a statement or of any statement nested inside it. -/
def stmtHasRec (p : PyStmt → Bool) : Nat → PyStmt → Bool
  | 0, s => p s
  | fuel + 1, s =>
    p s ||
      (match s with
       | .forRange _ _ body => body.any (stmtHasRec p fuel)
       | .forIn _ _ body => body.any (stmtHasRec p fuel)
       | .defFun _ _ body => body.any (stmtHasRec p fuel)
       | .tryE b h => b.any (stmtHasRec p fuel) || h.any (stmtHasRec p fuel)
       | .whileE _ body => body.any (stmtHasRec p fuel)
       | _ => false)

/-- Whether some statement of the cell, at any nesting depth, satisfies `p`. -/
def cellHasStmt (p : PyStmt → Bool) (c : Cell) : Bool :=
  match c with
  | .markdown => false
  | .code stmts => stmts.any (stmtHasRec p 40)

/-- The indices of the cells satisfying `p`. -/
def cellsSuchThat (p : Cell → Bool) : List Nat :=
  (List.range notebook.length).filter fun i => p (cellAt i)

/-- File, network, CLI and persistence operations; none may occur anywhere in
the notebook as an identifier, attribute field, or imported module. -/
def effectNames : List String :=
  [ "open", "socket", "requests", "urllib", "urlopen", "argparse",
    "parse_args", "subprocess", "os", "pathlib", "shutil", "glob", "pickle",
    "json", "csv", "sqlite3", "http", "ftplib", "smtplib", "input", "save",
    "load", "savefig", "savetxt", "loadtxt", "to_csv", "read_csv", "connect",
    "listen", "recv", "send", "write", "read", "close", "dump", "dumps",
    "loads", "getenv", "environ" ]

/-- Concurrency and cancellation primitives; none may occur anywhere in the
notebook. -/
def concNames : List String :=
  [ "threading", "Thread", "asyncio", "multiprocessing", "Process", "Pool",
    "spawn", "fork", "Lock", "Semaphore", "Condition", "Barrier", "Event",
    "Future", "concurrent", "futures", "await", "async", "cancel",
    "terminate", "kill", "interrupt", "join", "daemon" ]

/-- All identifiers and attribute fields of the whole notebook. -/
def nbNames : List String := (notebook.map cellNames).flatten

/-- Call paths that mutate interpreter-wide or framework-global state. -/
def globalMutPaths : List (List String) :=
  [ ["sys", "path", "append"], ["pyro", "set_rng_seed"],
    ["pyro", "clear_param_store"] ]

/-- Whether a statement is a function definition whose body mutates (appends
to) a name that is not one of its own parameters. -/
def stmtDefMutatesOuter : PyStmt → Bool
  | .defFun _ ps body =>
      (body.map (callPathsS 40)).flatten.any fun pth =>
        match pth with
        | [v, "append"] => !(ps.contains v)
        | _ => false
  | _ => false

/-- Whether the cell mutates global state: it calls one of the global
mutators, or defines a function that mutates a module-level name. -/
def cellGlobalMut (c : Cell) : Bool :=
  (cellPaths c).any (fun pth => globalMutPaths.contains pth) ||
    cellHasStmt stmtDefMutatesOuter c

/-- The module-level names appended to from inside function bodies of the
cell. -/
def cellDefMutatedNames (c : Cell) : List String :=
  match c with
  | .markdown => []
  | .code stmts =>
      (stmts.map fun s =>
        match s with
        | PyStmt.defFun _ ps body =>
            ((body.map (callPathsS 40)).flatten.filterMap fun pth =>
              match pth with
              | [v, "append"] => if ps.contains v then none else some v
              | _ => none)
        | _ => []).flatten

/-- Whether the cell contains a call whose target path ends in `f`. -/
def cellCallsMethod (f : String) (c : Cell) : Bool :=
  (cellPaths c).any fun pth => pth.getLast? == some f

/-- The expression assigned to variable `v` in cell `i`, when the cell has a
single-target assignment to `v`. -/
def assignedIn (i : Nat) (v : String) : Option PyExpr :=
  (stmtsOf i).findSome? fun s =>
    match s with
    | .assign [w] e => if w = v then some e else none
    | _ => none

/-- Whether the cell assigns to variable `v` (possibly among several
targets). -/
def cellAssigns (v : String) (c : Cell) : Bool :=
  match c with
  | .markdown => false
  | .code stmts => stmts.any fun s =>
      match s with
      | PyStmt.assign ts _ => ts.contains v
      | _ => false

/-! ### Shape semantics for the dataset cell

A leading-dimension semantics for exactly the tensor expressions the
notebook builds: `torch.rand(n, m)` has `n` rows, `torch.linspace(a, b, n)`
has `n` entries, `torch.cat` sums rows, `randn_like` preserves them,
elementwise methods (`mul`, `add`, `cos`, `unsqueeze`, `squeeze`) preserve
them, and broadcasting a scalar against a tensor yields the tensor's rows. -/

/-- Leading dimension (number of rows / data points) of a tensor
expression under an environment of known variable sizes. -/
def tensorRows : Nat → List (String × Nat) → PyExpr → Option Nat
  | 0, _, _ => none
  | fuel + 1, env, e =>
    match e with
    | .name v => env.lookup v
    | .call (.attr (.name "torch") "rand") (.num n 0 :: _) _ => some n.toNat
    | .call (.attr (.name "torch") "linspace") [_, _, .num n 0] _ => some n.toNat
    | .call (.attr (.name "torch") "randn_like") [t] _ => tensorRows fuel env t
    | .call (.attr (.name "torch") "cat") [.listE ts] _ =>
        (ts.mapM (tensorRows fuel env)).map (·.foldl (· + ·) 0)
    | .call (.attr t m) _ _ =>
        if m = "mul" || m = "add" || m = "cos" || m = "unsqueeze" || m = "squeeze"
        then tensorRows fuel env t else none
    | .bin _ l r =>
        match tensorRows fuel env l with
        | some n => some n
        | none => tensorRows fuel env r
    | _ => none

/-- Run the assignments of a statement list, recording each variable whose
row count the shape semantics can determine. -/
def envAfter (fuel : Nat) : List (String × Nat) → List PyStmt → List (String × Nat)
  | env, [] => env
  | env, s :: rest =>
    match s with
    | .assign [v] e =>
        match tensorRows fuel env e with
        | some n => envAfter fuel ((v, n) :: env) rest
        | none => envAfter fuel env rest
    | _ => envAfter fuel env rest

/-- Row counts of the dataset variables after running cell 3. -/
def dataEnv : List (String × Nat) := envAfter 40 [] (stmtsOf 3)

/-- Value of a `len(v)` expression over the dataset environment. -/
def evalLen : PyExpr → Option Nat
  | .call (.name "len") [.name v] [] => dataEnv.lookup v
  | _ => none

/-- The first positional argument of a call expression. -/
def firstArg : PyExpr → Option PyExpr
  | .call _ (a :: _) _ => some a
  | _ => none

/-- The value of keyword argument `k` of a call expression. -/
def kwargValue (k : String) : PyExpr → Option PyExpr
  | .call _ _ kwargs => kwargs.lookup k
  | _ => none

/-- The `batch_size` handed to the `DataLoader` in cell 4, evaluated. -/
def batchSizeVal : Option Nat :=
  (assignedIn 4 "loader").bind (kwargValue "batch_size") |>.bind evalLen

/-- The `dataset_size` handed to the SVI likelihood in cell 16, evaluated. -/
def sviDatasetSize : Option Nat :=
  (assignedIn 16 "obs_model").bind firstArg |>.bind evalLen

/-- The `dataset_size` handed to the MCMC likelihood in cell 24, evaluated. -/
def mcmcDatasetSize : Option Nat :=
  (assignedIn 24 "mcmc_likelihood").bind firstArg |>.bind evalLen

/-- Number of batches the `DataLoader` of cell 4 yields per epoch (ceiling
division of the dataset length by the batch size). -/
def numBatches : Option Nat :=
  match dataEnv.lookup "x", batchSizeVal with
  | some n, some b => some ((n + b - 1) / b)
  | _, _ => none

/-- Modelled from the spec: the likelihood implementation
(`tyxe.likelihoods`, not under `src/`) requires `dataset_size` "so that when
using minibatches the loss can be scaled adequately"; the minibatch scaling
factor is the ratio of the dataset size to the batch size. -/
def minibatchScale : Option ℚ :=
  match sviDatasetSize, batchSizeVal with
  | some n, some b => some ((n : ℚ) / (b : ℚ))
  | _, _ => none

/-! ### Real-number semantics for the dataset cell

`torch.rand` draws uniformly from `[0, 1)`; each entry of `x1` and `x2` is
the image of such a draw under the arithmetic of cell 3.  `torch.linspace(-2,
2, 401)` places point `i` at `-2 + i * (2 - (-2)) / (401 - 1)`. -/

/-- A draw of `torch.rand`: a real in `[0, 1)`. -/
def uniform01 (u : ℝ) : Prop := 0 ≤ u ∧ u < 1

/-- An entry of `x1 = torch.rand(50, 1) * 0.3 - 1`. -/
def x1Val (u : ℝ) : ℝ := u * 0.3 - 1

/-- An entry of `x2 = torch.rand(50, 1) * 0.5 + 0.5`. -/
def x2Val (u : ℝ) : ℝ := u * 0.5 + 0.5

/-- The method chain `.mul(4).add(0.8).cos()`, applied to `x` when forming
`y` (cell 3, line 4) and to `x_test` when forming `y_test` (cell 3, line 6). -/
noncomputable def meanCurve (t : ℝ) : ℝ := Real.cos (t * 4 + 0.8)

/-- An entry of `y = x.mul(4).add(0.8).cos() + 0.1 * torch.randn_like(x)`,
with `ε` the Gaussian draw of `randn_like`. -/
noncomputable def yVal (t ε : ℝ) : ℝ := meanCurve t + 0.1 * ε

/-- Point `i` of `torch.linspace(-2, 2, 401)`. -/
noncomputable def xTestPoint (i : ℕ) : ℝ := -2 + i * (2 - (-2)) / (401 - 1)

/-- Membership in the support of the training inputs:
`[-1, -0.7) ∪ [0.5, 1)`. -/
def inTrainSupport (t : ℝ) : Prop :=
  (-1 ≤ t ∧ t < -0.7) ∨ (0.5 ≤ t ∧ t < 1)

/-- The first positional argument of the `j`-th statement of cell `i`, when
that statement is a bare call. -/
def fitFirstArg (i j : Nat) : Option PyExpr :=
  (stmtAt i j).bind fun s =>
    match s with
    | PyStmt.exprS e => firstArg e
    | _ => none

/-- The architecture `nn.Sequential(nn.Linear(1, 50), nn.Tanh(),
nn.Linear(50, 1))`, for comparison of the SVI and MCMC networks. -/
def seqNetExpr : PyExpr :=
  .call (.attr (.name "nn") "Sequential")
    [ .call (.attr (.name "nn") "Linear") [.num 1 0, .num 50 0] [],
      .call (.attr (.name "nn") "Tanh") [] [],
      .call (.attr (.name "nn") "Linear") [.num 50 0, .num 1 0] [] ] []

/-- The prior `tyxe.priors.IIDPrior(dist.Normal(0, 1))`, for comparison of
the SVI and MCMC priors. -/
def iidPriorExpr : PyExpr :=
  .call (.attr (.attr (.name "tyxe") "priors") "IIDPrior")
    [.call (.attr (.name "dist") "Normal") [.num 0 0, .num 1 0] []] []

/-- The likelihood `tyxe.likelihoods.HomoskedasticGaussian(len(x),
scale=0.1)`, for comparison of the SVI and MCMC likelihoods. -/
def likelihoodExpr : PyExpr :=
  .call (.attr (.attr (.name "tyxe") "likelihoods") "HomoskedasticGaussian")
    [.call (.name "len") [.name "x"] []] [("scale", .num 1 (-1))]

/-! ### Theorems settling the claims -/

/-- C1, counterexample.  The claim states that every step of the notebook is
a single direct library call with no control flow and that, in particular,
the non-Bayesian baseline fit consists only of delegated library calls
rather than a training loop with a hand-computed objective.  Cell 8 refutes
this: its third statement is a `for` loop over 10000 iterations whose body
hand-computes the squared-error objective
`net(x).sub(y).pow(2).mean().backward()` and steps the optimizer. -/
theorem C1_counterexample :
    stmtAt 8 2 = some (.forRange "_" [.num 10000 0]
      [ .exprS (.call (.attr (.name "optim") "zero_grad") [] []),
        .exprS (.call (.attr
          (.call (.attr
            (.call (.attr
              (.call (.attr
                (.call (.name "net") [.name "x"] []) "sub") [.name "y"] [])
              "pow") [.num 2 0] [])
            "mean") [] []) "backward") [] []),
        .exprS (.call (.attr (.name "optim") "step") [] []) ]) := rfl

/-- C1, amended.  The notebook implements no retry logic and no state
machine: no cell contains a `try`/`except` or a `while` loop.  However, four
cells contain `for` loops: the non-Bayesian baseline fit (cell 8) is a
notebook-written training loop with a hand-computed squared-error objective,
and the plotting cells 28, 30 and 32 loop over confidence bands or sampled
curves; every other cell consists only of imports, assignments of library
calls, and direct library calls. -/
theorem C1_control_flow :
    cellsSuchThat (cellHasStmt stmtIsLoopB) = [8, 28, 30, 32] ∧
    cellsSuchThat (cellHasStmt stmtIsTryB) = [] ∧
    cellsSuchThat (cellHasStmt stmtIsWhileB) = [] ∧
    cellHasStmt stmtIsLoopB (cellAt 8) = true :=
  ⟨rfl, rfl, rfl, rfl⟩

/-- C2.  No cell of the notebook contains an exception handler: the set of
cell indices containing a `try`/`except` statement (at any nesting depth) is
empty, so no notebook-defined recovery code exists and any exception raised
by an underlying-library call propagates out of the notebook unhandled. -/
theorem C2_no_exception_handlers :
    cellsSuchThat (cellHasStmt stmtIsTryB) = ([] : List Nat) ∧
    cellsSuchThat (cellHasStmt stmtIsDefB) = [21] ∧
    stmtAt 21 3 = some (.defFun "callback" ["bnn", "i", "e"]
      [ .exprS (.call (.attr (.name "elbos") "append") [.name "e"] []) ]) :=
  ⟨rfl, rfl, rfl⟩

/-- C3, counterexample.  The claim states that Bayesian model assembly
entirely precedes inference, with no later stage preceding an earlier one.
But cell 21 already performs inference (it calls `.fit`) while cell 24 still
performs Bayesian model assembly (it constructs an `IIDPrior`, a
`HomoskedasticGaussian` and an `MCMC_BNN`), and 21 < 24. -/
theorem C3_counterexample :
    cellCallsMethod "fit" (cellAt 21) = true ∧
    cellMentions "IIDPrior" (cellAt 24) = true ∧
    cellMentions "MCMC_BNN" (cellAt 24) = true ∧
    21 < 24 :=
  ⟨rfl, rfl, rfl, by decide⟩

/-- C3, amended.  The stages appear at exactly these cells: dataset
synthesis only at cell 3; the point-estimate fit (the only cell using
`torch.optim.Adam`) at cell 8; Bayesian component assembly at cells 14, 16,
18, 20 and 24; `.fit` inference calls at cells 21 and 25; `.predict` at
cells 27, 29, 32; `.evaluate` at cell 35; uncertainty-band plots at cells 28
and 30.  Hence synthesis precedes the baseline fit, which precedes all
Bayesian assembly, and within each pipeline assembly precedes fit precedes
predict; but globally the MCMC assembly (cell 24) follows the SVI fit (cell
21) and the final evaluation (cell 35) follows the uncertainty plots, so
stages interleave across the two pipelines. -/
theorem C3_stage_order :
    cellsSuchThat (fun c => (cellPaths c).any (fun p =>
      [["torch", "rand"], ["torch", "cat"], ["torch", "linspace"],
       ["torch", "randn_like"]].contains p)) = [3] ∧
    cellsSuchThat (fun c => (cellPaths c).contains ["torch", "optim", "Adam"])
      = [8] ∧
    cellsSuchThat (fun c =>
      ["IIDPrior", "HomoskedasticGaussian", "AutoNormal", "VariationalBNN",
       "MCMC_BNN"].any (fun s => cellMentions s c)) = [14, 16, 18, 20, 24] ∧
    cellsSuchThat (cellCallsMethod "fit") = [21, 25] ∧
    cellsSuchThat (cellCallsMethod "predict") = [27, 29, 32] ∧
    cellsSuchThat (cellCallsMethod "evaluate") = [35] ∧
    cellsSuchThat (cellMentions "fill_between") = [28, 30] :=
  ⟨rfl, rfl, rfl, rfl, rfl, rfl, rfl⟩

/-- C4, counterexample.  The claim states that no operation of the notebook
mutates framework-global state or a module-level mutable variable that a
later cell or library-invoked callback reads.  But cell 1 sets the global
RNG seed, cell 21 creates the module-level list `elbos` which the callback
(invoked by the library during `bnn.fit`) appends to, and cell 22 reads
`elbos`. -/
theorem C4_counterexample :
    stmtAt 1 9 = some (.exprS
      (.call (.attr (.name "pyro") "set_rng_seed") [.num 42 0] [])) ∧
    stmtAt 21 2 = some (.assign ["elbos"] (.listE [])) ∧
    cellDefMutatedNames (cellAt 21) = ["elbos"] ∧
    cellMentions "elbos" (cellAt 22) = true :=
  ⟨rfl, rfl, rfl, rfl⟩

/-- C4, amended.  The notebook does mutate interpreter- and framework-global
state, in exactly four cells: cell 0 appends to `sys.path`, cell 1 seeds the
global RNG, cells 21 and 24 clear the global parameter store, and cell 21
additionally installs a callback mutating the module-level `elbos` list; no
other cell mutates global state. -/
theorem C4_global_state :
    cellsSuchThat cellGlobalMut = [0, 1, 21, 24] ∧
    (cellPaths (cellAt 0)).contains ["sys", "path", "append"] = true ∧
    (cellPaths (cellAt 1)).contains ["pyro", "set_rng_seed"] = true ∧
    (cellPaths (cellAt 21)).contains ["pyro", "clear_param_store"] = true ∧
    (cellPaths (cellAt 24)).contains ["pyro", "clear_param_store"] = true :=
  ⟨rfl, rfl, rfl, rfl, rfl⟩

/-- C5.  No identifier, attribute field or imported module of the notebook
is a file, network, CLI or persistence operation; the imported modules are
exactly the nine plotting/tensor/probabilistic libraries; and every call in
the dataset cell is an in-memory `torch` tensor constructor or an
elementwise tensor method, so all inputs are synthetic in-memory arrays and
nothing persists beyond a single execution. -/
theorem C5_no_external_io :
    nbNames.all (fun s => !(effectNames.contains s)) = true ∧
    importedModules = ["sys", "functools", "matplotlib.pyplot", "torch",
      "torch.nn", "torch.utils.data", "pyro", "pyro.distributions", "tyxe"] ∧
    (cellPaths (cellAt 3)).all (fun p =>
      p.head? == some "torch" ||
        ["mul", "add", "cos", "unsqueeze"].contains (p.getLast?.getD ""))
      = true :=
  ⟨rfl, rfl, rfl⟩

/-- C6, counterexample.  The claim states that no notebook-owned mutable
object is shared between a library-invoked callback during `fit` and a later
cell.  But cell 21 defines `callback`, whose body appends to the
notebook-owned list `elbos`, passes it to `bnn.fit`, and cell 22 later reads
`elbos`. -/
theorem C6_counterexample :
    stmtAt 21 3 = some (.defFun "callback" ["bnn", "i", "e"]
      [ .exprS (.call (.attr (.name "elbos") "append") [.name "e"] []) ]) ∧
    stmtAt 21 4 = some (.exprS (.call (.attr (.name "bnn") "fit")
      [.name "loader", .name "optim", .num 20000 0, .name "callback"] [])) ∧
    stmtAt 22 0 = some (.exprS
      (.call (.attr (.name "plt") "plot") [.name "elbos"] [])) :=
  ⟨rfl, rfl, rfl⟩

/-- C6, amended.  The notebook uses no concurrency or cancellation
primitive anywhere (no identifier or attribute of the transcript names
one), so it executes synchronously cell by cell; but one notebook-owned
mutable object is shared with a library-invoked callback: the only function
the notebook defines lives in cell 21, the only module-level name any such
function mutates is `elbos`, and cell 22 reads `elbos` after the fit. -/
theorem C6_synchronous_shared_state :
    nbNames.all (fun s => !(concNames.contains s)) = true ∧
    cellsSuchThat (cellHasStmt stmtIsDefB) = [21] ∧
    cellDefMutatedNames (cellAt 21) = ["elbos"] ∧
    cellMentions "elbos" (cellAt 22) = true :=
  ⟨rfl, rfl, rfl, rfl⟩

/-- C7.  The SVI model (cells 12, 14, 16) and the MCMC model (cell 24) are
assembled from structurally identical component expressions: the same
`nn.Sequential(nn.Linear(1, 50), nn.Tanh(), nn.Linear(50, 1))` network, the
same `tyxe.priors.IIDPrior(dist.Normal(0, 1))` prior, and the same
`tyxe.likelihoods.HomoskedasticGaussian(len(x), scale=0.1)` likelihood;
moreover `x` is assigned only in cell 3, so `len(x)` denotes the same value
in both, and the two inference methods run against the same probabilistic
model. -/
theorem C7_same_model :
    assignedIn 12 "net" = assignedIn 24 "mcmc_net" ∧
    assignedIn 14 "prior" = assignedIn 24 "mcmc_prior" ∧
    assignedIn 16 "obs_model" = assignedIn 24 "mcmc_likelihood" ∧
    assignedIn 12 "net" = some seqNetExpr ∧
    assignedIn 14 "prior" = some iidPriorExpr ∧
    assignedIn 16 "obs_model" = some likelihoodExpr ∧
    cellsSuchThat (cellAssigns "x") = [3] :=
  ⟨rfl, rfl, rfl, rfl, rfl, rfl, rfl⟩

/-- C8.  Under the shape semantics of the dataset cell, `x1` and `x2` have
50 rows each, so `x = torch.cat([x1, x2])` has 100; the `DataLoader`'s
`batch_size=len(x)` evaluates to 100, as does the `dataset_size` argument of
both likelihoods; both `fit` calls consume this loader, each epoch is a
single batch, and the minibatch scaling factor `dataset_size / batch_size`
is exactly 1. -/
theorem C8_full_batch :
    dataEnv.lookup "x1" = some 50 ∧
    dataEnv.lookup "x2" = some 50 ∧
    dataEnv.lookup "x" = some 100 ∧
    batchSizeVal = some 100 ∧
    sviDatasetSize = some 100 ∧
    mcmcDatasetSize = some 100 ∧
    fitFirstArg 21 4 = some (.name "loader") ∧
    fitFirstArg 25 0 = some (.name "loader") ∧
    numBatches = some 1 ∧
    minibatchScale = some 1 :=
  ⟨rfl, rfl, rfl, rfl, rfl, rfl, rfl, rfl, rfl, by
    have h1 : sviDatasetSize = some 100 := rfl
    have h2 : batchSizeVal = some 100 := rfl
    rw [minibatchScale, h1, h2]
    show some (((100 : ℕ) : ℚ) / ((100 : ℕ) : ℚ)) = some 1
    norm_num⟩

/-- C9.  Every training input is the image of a uniform `[0, 1)` draw under
the arithmetic of cell 3, hence lies in `[-1, -0.7)` (first half) or in
`[0.5, 1)` (second half); the evaluation grid has 401 points running evenly
from `-2` to `2` in steps of `1/100`; `y_test` applies to `x_test` exactly
the noise-free mean function that generates `y` (the noise term set to 0);
and point 200 of the grid is `0`, which lies outside the training support,
so evaluation covers regions with no training data. -/
theorem C9_data_ranges (u : ℝ) (hu : uniform01 u) :
    ((-1 ≤ x1Val u ∧ x1Val u < -0.7) ∧ (0.5 ≤ x2Val u ∧ x2Val u < 1)) ∧
    dataEnv.lookup "x_test" = some 401 ∧
    xTestPoint 0 = -2 ∧ xTestPoint 400 = 2 ∧
    (∀ i : ℕ, xTestPoint (i + 1) - xTestPoint i = 1 / 100) ∧
    (∀ t : ℝ, yVal t 0 = meanCurve t) ∧
    xTestPoint 200 = 0 ∧ ¬ inTrainSupport (xTestPoint 200) := by
  obtain ⟨h0, h1⟩ := hu
  have h200 : xTestPoint 200 = 0 := by norm_num [xTestPoint]
  refine ⟨⟨⟨?_, ?_⟩, ⟨?_, ?_⟩⟩, rfl, ?_, ?_, ?_, ?_, h200, ?_⟩
  · unfold x1Val; nlinarith
  · unfold x1Val; nlinarith
  · unfold x2Val; nlinarith
  · unfold x2Val; nlinarith
  · norm_num [xTestPoint]
  · norm_num [xTestPoint]
  · intro i
    unfold xTestPoint
    push_cast
    ring_nf
  · intro t
    simp [yVal]
  · rw [h200]
    unfold inTrainSupport
    push_neg
    norm_num

/-- Witness for C9: the theorem applied at the concrete uniform draw
`u = 1/2`. -/
theorem C9_data_ranges_witness :
    uniform01 (1 / 2) ∧
    (((-1 ≤ x1Val (1 / 2) ∧ x1Val (1 / 2) < -0.7) ∧
      (0.5 ≤ x2Val (1 / 2) ∧ x2Val (1 / 2) < 1)) ∧
     dataEnv.lookup "x_test" = some 401 ∧
     xTestPoint 0 = -2 ∧ xTestPoint 400 = 2 ∧
     (∀ i : ℕ, xTestPoint (i + 1) - xTestPoint i = 1 / 100) ∧
     (∀ t : ℝ, yVal t 0 = meanCurve t) ∧
     xTestPoint 200 = 0 ∧ ¬ inTrainSupport (xTestPoint 200)) :=
  ⟨⟨by norm_num, by norm_num⟩,
   C9_data_ranges (1 / 2) ⟨by norm_num, by norm_num⟩⟩

end RegressionTutorial
